import Mathlib

/-!
Verification of the market-aggregation core of the Snow Oracle Ball prediction-market
terminal.  The definitions below are a shallow embedding of the TypeScript sources:

* `src/server/api-clients.ts` — Kalshi adapter, repository cache (`fetchAllMarkets`),
  cross-source matcher (`findMatchingMarkets`) and spread detector
  (`detectSpreadOpportunities`);
* `src/unnamed/part_009` (the Polymarket client module) — Polymarket adapter,
  live-feed reconnect logic (`scheduleReconnect`) and live price patching
  (`handleRTDSMessage`);
* `src/shared/schema.ts` — the `Market` and `SpreadOpportunity` record shapes.

JavaScript numbers are modelled as `ℚ` (all arithmetic appearing in the sources is
exact decimal arithmetic followed by an explicit rounding step), fallible network
calls are modelled by an explicit result sum type, and the module-level mutable
state (`cachedMarkets`, `reconnectAttempts`, `marketCache`) is modelled by explicit
state passing.  JavaScript `Map`s are modelled as insertion-ordered association
lists, and the JavaScript falsiness idiom `x || d` is modelled by the `jsOr*`
helpers.
-/

namespace SnowOracle

/-! ### Data model (src/shared/schema.ts) -/

/-- Origin platform of a market record (`Platform` in `schema.ts`). -/
inductive Platform where
  | polymarket
  | kalshi
deriving DecidableEq, Repr

/-- Category enum (`Category` in `schema.ts`). -/
inductive Category where
  | trending
  | politics
  | crypto
  | sports
  | economy
  | tech
deriving DecidableEq, Repr

/-- Canonical market record (`markets` table shape in `schema.ts`). -/
structure Market where
  id : String
  title : String
  description : String
  platform : Platform
  category : Category
  yesPrice : ℚ
  noPrice : ℚ
  volume : ℚ
  resolutionDate : String
deriving DecidableEq, Repr

/-- Which side of a detected spread quotes the higher price. -/
inductive SpreadDirection where
  | polymarket_higher
  | kalshi_higher
deriving DecidableEq, Repr

/-- Confidence tier of a detected spread. -/
inductive Confidence where
  | high
  | medium
  | low
deriving DecidableEq, Repr

/-- Spread opportunity record (`SpreadOpportunity` in `schema.ts`).  Nullable
fields of the TypeScript type are `Option`s. -/
structure SpreadOpportunity where
  id : String
  title : String
  polymarketId : Option String
  kalshiId : Option String
  polymarketYesPrice : Option ℚ
  kalshiYesPrice : Option ℚ
  spreadPercent : ℚ
  spreadDirection : SpreadDirection
  combinedVolume : ℚ
  category : Category
  resolutionDate : String
  confidence : Confidence
  detectedAt : String
deriving DecidableEq, Repr

/-! ### JavaScript helpers

Small building blocks shared by the embedded functions: string lowering /
searching, the `x || default` falsiness idiom, and `Math.round`. -/

/-- Model of JavaScript `String.prototype.toLowerCase` (all strings in the
sources are ASCII). -/
def toLowerStr (s : String) : String :=
  String.mk (s.toList.map Char.toLower)

/-- Boolean test used below: `as` is a leading segment of `bs`. -/
def isPrefixOfL : List Char → List Char → Bool
  | [], _ => true
  | _ :: _, [] => false
  | a :: as, b :: bs => a == b && isPrefixOfL as bs

/-- Helper for `containsSubstring`, scanning every suffix of the haystack. -/
def containsSubAux (needle : List Char) : List Char → Bool
  | [] => needle.isEmpty
  | c :: rest => isPrefixOfL needle (c :: rest) || containsSubAux needle rest

/-- Model of JavaScript `String.prototype.includes`. -/
def containsSubstring (hay needle : String) : Bool :=
  containsSubAux needle.toList hay.toList

/-- JavaScript `x || d` for a number `x` (`0` and `NaN` are falsy; `NaN` cannot
arise in the exact-arithmetic model, so only `0` selects the default). -/
def jsOrQ (x d : ℚ) : ℚ := if x = 0 then d else x

/-- JavaScript `x || d` where `x` is the result of `parseFloat` (modelled as
`none` when the parse produced `NaN`, e.g. for a missing entry). -/
def jsOrOpt (x : Option ℚ) (d : ℚ) : ℚ :=
  match x with
  | none => d
  | some v => if v = 0 then d else v

/-- JavaScript `s || d` for a string `s` (the empty string is falsy). -/
def jsOrS (s d : String) : String := if s = "" then d else s

/-- Model of JavaScript `Math.round` (half-up, i.e. `⌊x + 1/2⌋`). -/
def jsRound (x : ℚ) : ℚ := (Rat.floor (x + 1/2) : ℚ)

/-- Price clamp used by both adapters: `Math.max(0.01, Math.min(0.99, x))`. -/
def clampPrice (x : ℚ) : ℚ := max (1/100) (min (99/100) x)

/-- Lookup in an insertion-ordered association list; model of
`Map.prototype.get`. -/
def lookupKey {α : Type} (entries : List (String × α)) (key : String) : Option α :=
  match entries.find? (fun p => p.1 == key) with
  | some p => some p.2
  | none => none

/-- Model of `Map.prototype.set`: replace in place when the key is present,
append otherwise. -/
def mapSet {α : Type} (entries : List (String × α)) (key : String) (value : α) :
    List (String × α) :=
  if entries.any (fun p => p.1 == key) then
    entries.map (fun p => if p.1 == key then (key, value) else p)
  else entries ++ [(key, value)]

/-! ### Cross-source matcher (api-clients.ts, lines 147-205) -/

/-- Keeps exactly the characters the regex `[^a-z0-9\s]` would not delete. -/
def keepChar (c : Char) : Bool :=
  ('a' ≤ c && c ≤ 'z') || ('0' ≤ c && c ≤ '9') || c.isWhitespace

/-- Model of `.replace(/\s+/g, " ")`: collapse every whitespace run to a single
space.  The boolean flag records whether the previous character was whitespace. -/
def collapseSpaces : Bool → List Char → List Char
  | _, [] => []
  | prevWs, c :: rest =>
    if c.isWhitespace then
      if prevWs then collapseSpaces true rest
      else ' ' :: collapseSpaces true rest
    else c :: collapseSpaces false rest

/-- Model of `String.prototype.trim`. -/
def trimChars (cs : List Char) : List Char :=
  ((cs.dropWhile Char.isWhitespace).reverse.dropWhile Char.isWhitespace).reverse

/-- `normalizeTitle` (api-clients.ts, lines 153-159): lowercase, strip
non-alphanumeric non-space characters, collapse whitespace, trim. -/
def normalizeTitle (title : String) : String :=
  String.mk (trimChars (collapseSpaces false ((toLowerStr title).toList.filter keepChar)))

/-- Helper for `splitOnSpace`, accumulating the current (reversed) word. -/
def splitSpaceAux : List Char → List Char → List String
  | [], acc => [String.mk acc.reverse]
  | c :: rest, acc =>
    if c = ' ' then String.mk acc.reverse :: splitSpaceAux rest []
    else splitSpaceAux rest (c :: acc)

/-- Model of JavaScript `s.split(" ")` (in particular `"".split(" ") = [""]`). -/
def splitOnSpace (s : String) : List String := splitSpaceAux s.toList []

/-- `calculateSimilarity` (api-clients.ts, lines 161-173): Jaccard-style ratio
between the word lists of the two normalized titles.  As in the source, the
intersection is computed by filtering `words1` (duplicates retained) while the
union is de-duplicated. -/
def calculateSimilarity (title1 title2 : String) : ℚ :=
  let norm1 := normalizeTitle title1
  let norm2 := normalizeTitle title2
  let words1 := splitOnSpace norm1
  let words2 := splitOnSpace norm2
  let intersection := words1.filter (fun x => words2.contains x)
  let unionSet := (words1 ++ words2).dedup
  (intersection.length : ℚ) / (unionSet.length : ℚ)

/-- Ephemeral matched pair (`MarketSimilarity` in api-clients.ts); both sides are
nullable in the TypeScript interface. -/
structure MarketSimilarity where
  polymarket : Option Market
  kalshi : Option Market
  similarity : ℚ
deriving DecidableEq, Repr

/-- Running best candidate of the inner loop of `findMatchingMarkets`. -/
structure BestMatch where
  market : Market
  similarity : ℚ
deriving DecidableEq, Repr

/-- One step of the inner loop of `findMatchingMarkets` (lines 185-192): skip
already-claimed Kalshi markets, and take `kl` as the new best candidate when its
similarity exceeds `0.3` and the current best. -/
def considerCandidate (pm : Market) (usedKalshi : List String)
    (bestMatch : Option BestMatch) (kl : Market) : Option BestMatch :=
  if usedKalshi.contains kl.id then bestMatch
  else
    let similarity := calculateSimilarity pm.title kl.title
    if 3/10 < similarity then
      match bestMatch with
      | none => some ⟨kl, similarity⟩
      | some b => if b.similarity < similarity then some ⟨kl, similarity⟩ else bestMatch
    else bestMatch

/-- The inner loop of `findMatchingMarkets`: best unclaimed Kalshi candidate for
one Polymarket market. -/
def bestKalshiMatch (pm : Market) (kalshiMarkets : List Market)
    (usedKalshi : List String) : Option BestMatch :=
  kalshiMarkets.foldl (considerCandidate pm usedKalshi) none

/-- The outer loop of `findMatchingMarkets` (lines 182-202), threading the
`usedKalshi` claim set; a pair is emitted only above similarity `0.4`. -/
def matchLoop (kalshiMarkets : List Market) :
    List Market → List String → List MarketSimilarity
  | [], _ => []
  | pm :: rest, usedKalshi =>
    match bestKalshiMatch pm kalshiMarkets usedKalshi with
    | some best =>
      if 2/5 < best.similarity then
        { polymarket := some pm, kalshi := some best.market, similarity := best.similarity }
          :: matchLoop kalshiMarkets rest (best.market.id :: usedKalshi)
      else matchLoop kalshiMarkets rest usedKalshi
    | none => matchLoop kalshiMarkets rest usedKalshi

/-- `findMatchingMarkets` (api-clients.ts, lines 175-205). -/
def findMatchingMarkets (markets : List Market) : List MarketSimilarity :=
  let polymarketMarkets := markets.filter (fun m => m.platform == Platform.polymarket)
  let kalshiMarkets := markets.filter (fun m => m.platform == Platform.kalshi)
  matchLoop kalshiMarkets polymarketMarkets []

/-! ### Spread detector (api-clients.ts, lines 207-396) -/

/-- The curated demo list `mockSpreads` (api-clients.ts, lines 215-336).  The
`detectedAt` timestamps (`new Date().toISOString()`) are the caller-supplied
`now`. -/
def mockSpreads (now : String) : List SpreadOpportunity :=
  [ { id := "mock-1", title := "Will Bitcoin exceed $150,000 by end of 2025?",
      polymarketId := some "poly-btc-150k", kalshiId := some "kalshi-btc-150k",
      polymarketYesPrice := some (42/100), kalshiYesPrice := some (35/100),
      spreadPercent := 7, spreadDirection := SpreadDirection.polymarket_higher,
      combinedVolume := 2500000, category := Category.crypto,
      resolutionDate := "2025-12-31", confidence := Confidence.high, detectedAt := now },
    { id := "mock-2", title := "Will Ethereum reach $10,000 in 2025?",
      polymarketId := some "poly-eth-10k", kalshiId := some "kalshi-eth-10k",
      polymarketYesPrice := some (28/100), kalshiYesPrice := some (34/100),
      spreadPercent := 6, spreadDirection := SpreadDirection.kalshi_higher,
      combinedVolume := 1800000, category := Category.crypto,
      resolutionDate := "2025-12-31", confidence := Confidence.high, detectedAt := now },
    { id := "mock-3", title := "Will Fed cut rates in January 2025?",
      polymarketId := some "poly-fed-jan", kalshiId := some "kalshi-fed-jan",
      polymarketYesPrice := some (15/100), kalshiYesPrice := some (22/100),
      spreadPercent := 7, spreadDirection := SpreadDirection.kalshi_higher,
      combinedVolume := 3200000, category := Category.economy,
      resolutionDate := "2025-01-31", confidence := Confidence.high, detectedAt := now },
    { id := "mock-4", title := "Will Tesla stock hit $500 by Q1 2025?",
      polymarketId := some "poly-tsla-500", kalshiId := some "kalshi-tsla-500",
      polymarketYesPrice := some (55/100), kalshiYesPrice := some (48/100),
      spreadPercent := 7, spreadDirection := SpreadDirection.polymarket_higher,
      combinedVolume := 1500000, category := Category.economy,
      resolutionDate := "2025-03-31", confidence := Confidence.medium, detectedAt := now },
    { id := "mock-5", title := "Will Ukraine conflict end before July 2025?",
      polymarketId := some "poly-ukraine", kalshiId := some "kalshi-ukraine",
      polymarketYesPrice := some (18/100), kalshiYesPrice := some (25/100),
      spreadPercent := 7, spreadDirection := SpreadDirection.kalshi_higher,
      combinedVolume := 4500000, category := Category.politics,
      resolutionDate := "2025-06-30", confidence := Confidence.medium, detectedAt := now },
    { id := "mock-6", title := "Will Solana flip Ethereum market cap in 2025?",
      polymarketId := some "poly-sol-flip", kalshiId := some "kalshi-sol-flip",
      polymarketYesPrice := some (8/100), kalshiYesPrice := some (12/100),
      spreadPercent := 4, spreadDirection := SpreadDirection.kalshi_higher,
      combinedVolume := 890000, category := Category.crypto,
      resolutionDate := "2025-12-31", confidence := Confidence.medium, detectedAt := now },
    { id := "mock-7", title := "Will Apple release AR glasses in 2025?",
      polymarketId := some "poly-apple-ar", kalshiId := some "kalshi-apple-ar",
      polymarketYesPrice := some (38/100), kalshiYesPrice := some (32/100),
      spreadPercent := 6, spreadDirection := SpreadDirection.polymarket_higher,
      combinedVolume := 720000, category := Category.tech,
      resolutionDate := "2025-12-31", confidence := Confidence.low, detectedAt := now },
    { id := "mock-8", title := "Will S&P 500 reach 6500 by mid-2025?",
      polymarketId := some "poly-sp500", kalshiId := some "kalshi-sp500",
      polymarketYesPrice := some (62/100), kalshiYesPrice := some (55/100),
      spreadPercent := 7, spreadDirection := SpreadDirection.polymarket_higher,
      combinedVolume := 2100000, category := Category.economy,
      resolutionDate := "2025-06-30", confidence := Confidence.high, detectedAt := now } ]

/-- One iteration of the cross-source loop of `detectSpreadOpportunities`
(api-clients.ts, lines 338-367); `none` when the pair is skipped (a null side,
or a spread below the 2% noise floor). -/
def crossOpp (now : String) (index : ℕ) (m : MarketSimilarity) :
    Option SpreadOpportunity :=
  match m.polymarket, m.kalshi with
  | some pm, some kl =>
    let pmPrice := pm.yesPrice
    let klPrice := kl.yesPrice
    let spreadPercent := |pmPrice - klPrice| * 100
    if spreadPercent < 2 then none
    else
      let confidence : Confidence :=
        if 7/10 < m.similarity then Confidence.high
        else if 1/2 < m.similarity then Confidence.medium
        else Confidence.low
      some { id := "spread-" ++ toString index, title := pm.title,
             polymarketId := some pm.id, kalshiId := some kl.id,
             polymarketYesPrice := some pmPrice, kalshiYesPrice := some klPrice,
             spreadPercent := jsRound (spreadPercent * 10) / 10,
             spreadDirection :=
               if klPrice < pmPrice then SpreadDirection.polymarket_higher
               else SpreadDirection.kalshi_higher,
             combinedVolume := pm.volume + kl.volume,
             category := pm.category, resolutionDate := pm.resolutionDate,
             confidence := confidence, detectedAt := now }
  | _, _ => none

/-- The cross-source opportunities, indexed like the source loop over
`matches`. -/
def crossOpportunities (now : String) (matchList : List MarketSimilarity) :
    List SpreadOpportunity :=
  matchList.enum.filterMap (fun p => crossOpp now p.1 p.2)

/-- Internal book inconsistency of one market, in percent (api-clients.ts,
line 374). -/
def internalSpreadOf (m : Market) : ℚ := |m.yesPrice - (1 - m.noPrice)| * 100

/-- Mapping step of the single-platform list (api-clients.ts, lines 377-391). -/
def internalOpp (now : String) (index : ℕ) (m : Market) : SpreadOpportunity :=
  { id := "internal-spread-" ++ toString index, title := m.title,
    polymarketId := if m.platform == Platform.polymarket then some m.id else none,
    kalshiId := if m.platform == Platform.kalshi then some m.id else none,
    polymarketYesPrice := if m.platform == Platform.polymarket then some m.yesPrice else none,
    kalshiYesPrice := if m.platform == Platform.kalshi then some m.yesPrice else none,
    spreadPercent := jsRound (|m.yesPrice - (1 - m.noPrice)| * 1000) / 10,
    spreadDirection :=
      if m.platform == Platform.polymarket then SpreadDirection.polymarket_higher
      else SpreadDirection.kalshi_higher,
    combinedVolume := m.volume, category := m.category,
    resolutionDate := m.resolutionDate, confidence := Confidence.medium,
    detectedAt := now }

/-- `singlePlatformSpreads` (api-clients.ts, lines 372-391): markets whose
internal spread exceeds 5%. -/
def singlePlatformSpreads (now : String) (markets : List Market) :
    List SpreadOpportunity :=
  ((markets.filter (fun m => decide (5 < internalSpreadOf m))).enum).map
    (fun p => internalOpp now p.1 p.2)

/-- Stable descending sort by `spreadPercent`, the model of
`.sort((a, b) => b.spreadPercent - a.spreadPercent)` (JavaScript array sort is
stable). -/
def sortBySpreadDesc (l : List SpreadOpportunity) : List SpreadOpportunity :=
  l.mergeSort (fun a b => decide (b.spreadPercent ≤ a.spreadPercent))

/-- Pure core of `detectSpreadOpportunities` (api-clients.ts, lines 207-396),
applied to the current snapshot `markets`: concatenate the curated list, the
cross-source pairs and the single-platform inconsistencies, sort by
`spreadPercent` descending, truncate to 20. -/
def detectSpreadOpportunities (now : String) (markets : List Market) :
    List SpreadOpportunity :=
  let matchList := findMatchingMarkets markets
  let opportunities := sortBySpreadDesc (crossOpportunities now matchList)
  (sortBySpreadDesc
      (mockSpreads now ++ opportunities ++ singlePlatformSpreads now markets)).take 20

/-! ### Kalshi adapter (api-clients.ts, lines 6-85) -/

/-- Wire shape of one Kalshi listing (`KalshiMarket` interface, lines 6-21);
numeric fields are modelled as `ℚ`. -/
structure KalshiMarket where
  ticker : String
  title : String
  subtitle : String
  yes_bid : ℚ
  yes_ask : ℚ
  no_bid : ℚ
  no_ask : ℚ
  volume : ℚ
  volume_24h : ℚ
  close_time : String
  status : String
  category : String
  result : Option String
  event_ticker : String
deriving DecidableEq, Repr

/-- `mapKalshiCategory` (api-clients.ts, lines 28-48): first matching keyword
rule wins. -/
def mapKalshiCategory (market : KalshiMarket) : Category :=
  let cat := toLowerStr market.category
  let title := toLowerStr market.title
  if containsSubstring cat "crypto" || containsSubstring title "bitcoin" ||
      containsSubstring title "crypto" then Category.crypto
  else if containsSubstring cat "politic" || containsSubstring cat "election" ||
      containsSubstring title "president" || containsSubstring title "congress" then
    Category.politics
  else if containsSubstring cat "sport" || containsSubstring title "super bowl" ||
      containsSubstring title "championship" then Category.sports
  else if containsSubstring cat "econ" || containsSubstring cat "fed" ||
      containsSubstring title "inflation" || containsSubstring title "interest rate" then
    Category.economy
  else if containsSubstring cat "tech" || containsSubstring cat "science" ||
      containsSubstring title "ai" || containsSubstring title "tesla" then Category.tech
  else Category.trending

/-- Conversion of one Kalshi listing into the canonical record (api-clients.ts,
lines 65-80): mid of bid/ask scaled from cents, clamped to `[0.01, 0.99]`. -/
def kalshiToMarket (market : KalshiMarket) : Market :=
  let yesMid := (market.yes_bid + market.yes_ask) / 2 / 100
  let noMid := (market.no_bid + market.no_ask) / 2 / 100
  { id := "kl-" ++ market.ticker,
    title := jsOrS market.title "Untitled Market",
    description := jsOrS market.subtitle "",
    platform := Platform.kalshi,
    category := mapKalshiCategory market,
    yesPrice := clampPrice (jsOrQ yesMid (1/2)),
    noPrice := clampPrice (jsOrQ noMid (1/2)),
    volume := jsOrQ market.volume 0,
    resolutionDate := jsOrS market.close_time "" }

/-- Outcome of the HTTP fetch inside `fetchKalshiMarkets`: every way the
`try` block can throw (network failure, non-2xx response, malformed JSON) or a
parsed payload. -/
inductive KalshiFetchResult where
  | networkError
  | httpError (status : ℕ)
  | parseError
  | success (markets : List KalshiMarket)
deriving DecidableEq, Repr

/-- `fetchKalshiMarkets` (api-clients.ts, lines 54-85) as a function of the
fetch outcome: every failure path is caught and yields `[]`; a parsed payload is
filtered to open/active listings and converted. -/
def fetchKalshiMarkets : KalshiFetchResult → List Market
  | KalshiFetchResult.success ms =>
    (ms.filter (fun m => m.status == "open" || m.status == "active")).map kalshiToMarket
  | _ => []

/-! ### Polymarket adapter (part_009, lines 56-143) -/

/-- Wire shape of one Polymarket market (`PolymarketMarketData`, part_009 lines
19-31).  `outcomePrices` and `volume` hold the `parseFloat` results of the raw
strings (`none` models `NaN`, e.g. a missing or unparseable entry). -/
structure PolymarketMarketData where
  id : String
  question : String
  slug : String
  outcomes : List String
  outcomePrices : List (Option ℚ)
  volume : Option ℚ
  active : Bool
  closed : Bool
  endDate : String
  clobTokenIds : List String
deriving DecidableEq, Repr

/-- `mapCategory` (part_009, lines 56-80): keyword classifier over
`title description`, first matching rule wins. -/
def mapCategory (title description : String) : Category :=
  let text := toLowerStr (title ++ " " ++ description)
  if containsSubstring text "bitcoin" || containsSubstring text "crypto" ||
      containsSubstring text "ethereum" || containsSubstring text "btc" ||
      containsSubstring text "eth" || containsSubstring text "solana" then Category.crypto
  else if containsSubstring text "president" || containsSubstring text "election" ||
      containsSubstring text "congress" || containsSubstring text "trump" ||
      containsSubstring text "biden" || containsSubstring text "political" then
    Category.politics
  else if containsSubstring text "super bowl" || containsSubstring text "nfl" ||
      containsSubstring text "nba" || containsSubstring text "championship" ||
      containsSubstring text "world cup" || containsSubstring text "olympic" then
    Category.sports
  else if containsSubstring text "inflation" || containsSubstring text "fed" ||
      containsSubstring text "interest rate" || containsSubstring text "gdp" ||
      containsSubstring text "economy" || containsSubstring text "recession" then
    Category.economy
  else if containsSubstring text "ai" || containsSubstring text "openai" ||
      containsSubstring text "tesla" || containsSubstring text "apple" ||
      containsSubstring text "google" || containsSubstring text "tech" then Category.tech
  else Category.trending

/-- Conversion of one Polymarket market into the canonical record
(part_009, lines 100-117, the events path): outcome-price array with `|| 0.5`
and `|| (1 - yesPrice)` fallbacks, clamped to `[0.01, 0.99]`.  (The direct-markets
path, lines 160-178, applies the identical clamping expressions.) -/
def polymarketToMarket (eventTitle eventDescription : String)
    (market : PolymarketMarketData) : Market :=
  let yesPrice := jsOrOpt (market.outcomePrices.getD 0 none) (1/2)
  let noPrice := jsOrOpt (market.outcomePrices.getD 1 none) (1 - yesPrice)
  let volume := jsOrOpt market.volume 0
  { id := "pm-" ++ market.id,
    title := jsOrS market.question (jsOrS eventTitle "Untitled"),
    description := jsOrS eventDescription "",
    platform := Platform.polymarket,
    category := mapCategory (jsOrS market.question eventTitle) eventDescription,
    yesPrice := clampPrice yesPrice,
    noPrice := clampPrice noPrice,
    volume := jsRound volume,
    resolutionDate := jsOrS market.endDate "" }

/-! ### Repository cache (api-clients.ts, lines 87-126) -/

/-- The static fallback dataset `fallbackMarkets` (api-clients.ts, lines
87-94). -/
def fallbackMarkets : List Market :=
  [ { id := "pm-fallback-1", title := "Will the US Federal Reserve cut interest rates in Q1 2025?",
      description := "This market resolves YES if the Federal Reserve announces a federal funds rate cut during Q1 2025.",
      platform := Platform.polymarket, category := Category.economy,
      yesPrice := 42/100, noPrice := 58/100, volume := 2450000, resolutionDate := "2025-03-31" },
    { id := "kl-fallback-1", title := "Will there be a government shutdown before March 2025?",
      description := "Resolves YES if a federal government shutdown occurs lasting at least 24 hours.",
      platform := Platform.kalshi, category := Category.politics,
      yesPrice := 28/100, noPrice := 72/100, volume := 890000, resolutionDate := "2025-03-01" },
    { id := "pm-fallback-2", title := "Will Bitcoin reach $150,000 by end of 2025?",
      description := "Resolves YES if BTC/USD reaches $150,000 on any major exchange before December 31, 2025.",
      platform := Platform.polymarket, category := Category.crypto,
      yesPrice := 35/100, noPrice := 65/100, volume := 5800000, resolutionDate := "2025-12-31" },
    { id := "kl-fallback-2", title := "Will the Kansas City Chiefs win Super Bowl LIX?",
      description := "Resolves YES if the Kansas City Chiefs win Super Bowl LIX.",
      platform := Platform.kalshi, category := Category.sports,
      yesPrice := 22/100, noPrice := 78/100, volume := 4500000, resolutionDate := "2025-02-09" },
    { id := "pm-fallback-3", title := "Will OpenAI release GPT-5 in 2025?",
      description := "Resolves YES if OpenAI publicly releases a model called GPT-5 or equivalent.",
      platform := Platform.polymarket, category := Category.tech,
      yesPrice := 65/100, noPrice := 35/100, volume := 4100000, resolutionDate := "2025-12-31" },
    { id := "kl-fallback-3", title := "Will US inflation fall below 2% in 2025?",
      description := "Resolves YES if the US CPI year-over-year reading falls below 2% at any point in 2025.",
      platform := Platform.kalshi, category := Category.economy,
      yesPrice := 31/100, noPrice := 69/100, volume := 1890000, resolutionDate := "2025-12-31" } ]

/-- Module-level mutable state of the cache (api-clients.ts, lines 96-99). -/
structure CacheState where
  cachedMarkets : List Market
  lastFetchTime : ℚ
  isLiveData : Bool
deriving DecidableEq, Repr

/-- `CACHE_TTL` (api-clients.ts, line 98), in milliseconds. -/
def CACHE_TTL : ℚ := 60000

/-- The state at process start: `cachedMarkets = [...fallbackMarkets]`,
`lastFetchTime = 0`, `isLiveData = false`. -/
def initialCacheState : CacheState :=
  { cachedMarkets := fallbackMarkets, lastFetchTime := 0, isLiveData := false }

/-- `fetchAllMarkets` (api-clients.ts, lines 101-126) as a state transformer:
`now` is `Date.now()` and the two lists are the results of the concurrent
adapter fetches (each already `[]` on failure).  Returns the served list and the
updated module state. -/
def fetchAllMarkets (s : CacheState) (now : ℚ)
    (polymarketMarkets kalshiMarkets : List Market) : List Market × CacheState :=
  if s.isLiveData ∧ 0 < s.cachedMarkets.length ∧ now - s.lastFetchTime < CACHE_TTL then
    (s.cachedMarkets, s)
  else
    let allMarkets := polymarketMarkets ++ kalshiMarkets
    if 0 < allMarkets.length then
      (allMarkets, { cachedMarkets := allMarkets, lastFetchTime := now, isLiveData := true })
    else if s.cachedMarkets.length = 0 then
      (fallbackMarkets, { s with cachedMarkets := fallbackMarkets })
    else
      (s.cachedMarkets, s)

/-! ### Live feed client (part_009, lines 48-299) -/

/-- `MAX_RECONNECT_ATTEMPTS` (part_009, line 53). -/
def MAX_RECONNECT_ATTEMPTS : ℕ := 5

/-- `RECONNECT_DELAY` (part_009, line 54), the base delay in milliseconds. -/
def RECONNECT_DELAY : ℕ := 5000

/-- `scheduleReconnect` (part_009, lines 259-272) acting on the module-level
`reconnectAttempts` counter: returns the new counter value and the delay of the
timer it installs (`none` when the attempt cap has been reached and the call
returns without scheduling anything). -/
def scheduleReconnect (reconnectAttempts : ℕ) : ℕ × Option ℕ :=
  if MAX_RECONNECT_ATTEMPTS ≤ reconnectAttempts then (reconnectAttempts, none)
  else (reconnectAttempts + 1, some (RECONNECT_DELAY * (reconnectAttempts + 1)))

/-- The `open` handler of `connectWebSocket` (part_009, line 220) resets
`reconnectAttempts` to zero. -/
def resetAttemptsOnOpen (_reconnectAttempts : ℕ) : ℕ := 0

/-- A run of `k` consecutive connection-close events with no successful open in
between: each one invokes `scheduleReconnect`.  Returns the final counter and
the list of delays of every reconnect timer that was installed. -/
def runCloses : ℕ → ℕ → ℕ × List ℕ
  | reconnectAttempts, 0 => (reconnectAttempts, [])
  | reconnectAttempts, k + 1 =>
    let step := scheduleReconnect reconnectAttempts
    let rest := runCloses step.1 k
    (rest.1, step.2.toList ++ rest.2)

/-- Trade payload of a live-feed message (`TradePayload`, part_009 lines
39-46). -/
structure TradePayload where
  market_slug : String
  outcome : String
  price : ℚ
  size : ℚ
  side : String
  timestamp : ℚ
deriving DecidableEq, Repr

/-- A live-feed message (`RTDSMessage`, part_009 lines 33-37).  The untyped
`payload: any` is modelled as `Option TradePayload`: `none` stands for an absent
or non-trade payload (falsy under the source's `payload && ...` check). -/
structure RTDSMessage where
  topic : String
  type : String
  payload : Option TradePayload
deriving DecidableEq, Repr

/-- `handleRTDSMessage` (part_009, lines 274-299) acting on the module maps:
`slugToMarketId` is the adapter-built slug index and `marketCache` the market
map, both as association lists.  Returns the updated market cache.  The source's
truthiness guards (`payload.market_slug`, `payload.price`), the slug-index and
cache lookups, and the `0 < price < 1` validation are reproduced exactly. -/
def handleRTDSMessage (slugToMarketId : List (String × String))
    (marketCache : List (String × Market)) (message : RTDSMessage) :
    List (String × Market) :=
  if message.topic = "activity" ∧ message.type = "trades" then
    match message.payload with
    | some payload =>
      if payload.market_slug ≠ "" ∧ payload.price ≠ 0 then
        match lookupKey slugToMarketId payload.market_slug with
        | some marketId =>
          match lookupKey marketCache marketId with
          | some market =>
            let newPrice := payload.price
            if 0 < newPrice ∧ newPrice < 1 then
              if payload.outcome = "Yes" ∨ payload.outcome = "yes" then
                mapSet marketCache marketId
                  { market with yesPrice := newPrice, noPrice := 1 - newPrice }
              else
                mapSet marketCache marketId
                  { market with noPrice := newPrice, yesPrice := 1 - newPrice }
            else marketCache
          | none => marketCache
        | none => marketCache
      else marketCache
    | none => marketCache
  else marketCache

/-! ### Derived predicates and concrete test data -/

/-- Both prices of `m` lie inside the adapters' clamping range. -/
def pricesClamped (m : Market) : Prop :=
  1/100 ≤ m.yesPrice ∧ m.yesPrice ≤ 99/100 ∧ 1/100 ≤ m.noPrice ∧ m.noPrice ≤ 99/100

/-- Both prices of `m` lie inside the open unit interval. -/
def pricesOpen (m : Market) : Prop :=
  0 < m.yesPrice ∧ m.yesPrice < 1 ∧ 0 < m.noPrice ∧ m.noPrice < 1

/-- The source-A side of the spec's matching scenario: platform A reports
"Will BTC hit $150k?" at yes = 0.42. -/
def btcPm : Market :=
  { id := "pm-btc", title := "Will BTC hit $150k?", description := "",
    platform := Platform.polymarket, category := Category.crypto,
    yesPrice := 42/100, noPrice := 58/100, volume := 0, resolutionDate := "" }

/-- The source-B side of the spec's matching scenario: platform B reports
"Bitcoin to exceed $150,000" at yes = 0.35. -/
def btcKl : Market :=
  { id := "kl-btc", title := "Bitcoin to exceed $150,000", description := "",
    platform := Platform.kalshi, category := Category.crypto,
    yesPrice := 35/100, noPrice := 65/100, volume := 0, resolutionDate := "" }

/-- A snapshot of 14 Kalshi markets, each with an internal book inconsistency of
5.5% (`yesPrice = 0.5`, `noPrice = 0.445`), used to exhibit displacement of
genuinely detected opportunities by the curated list. -/
def snap14 : List Market :=
  (List.range 14).map (fun i =>
    { id := "k" ++ toString i, title := "m" ++ toString i, description := "",
      platform := Platform.kalshi, category := Category.crypto,
      yesPrice := 1/2, noPrice := 89/200, volume := 0, resolutionDate := "" })

/-- The single-platform opportunities the detector derives from `snap14`,
spelled out. -/
def snap14Singles : List SpreadOpportunity :=
  (List.range 14).map (fun i =>
    { id := "internal-spread-" ++ toString i, title := "m" ++ toString i,
      polymarketId := none, kalshiId := some ("k" ++ toString i),
      polymarketYesPrice := none, kalshiYesPrice := some (1/2),
      spreadPercent := 11/2, spreadDirection := SpreadDirection.kalshi_higher,
      combinedVolume := 0, category := Category.crypto, resolutionDate := "",
      confidence := Confidence.medium, detectedAt := "t" })

/-- The cross-source opportunity the detector derives from the pair
`(btcPm, btcKl)` at similarity `1/2`, spelled out. -/
def c9Opp : SpreadOpportunity :=
  { id := "spread-0", title := "Will BTC hit $150k?",
    polymarketId := some "pm-btc", kalshiId := some "kl-btc",
    polymarketYesPrice := some (42/100), kalshiYesPrice := some (35/100),
    spreadPercent := 7, spreadDirection := SpreadDirection.polymarket_higher,
    combinedVolume := 0, category := Category.crypto, resolutionDate := "",
    confidence := Confidence.low, detectedAt := "x" }

/-- A concrete open Kalshi listing used to instantiate adapter theorems. -/
def demoKalshiListing : KalshiMarket :=
  { ticker := "T1", title := "Demo", subtitle := "", yes_bid := 40,
    yes_ask := 44, no_bid := 56, no_ask := 60, volume := 10,
    volume_24h := 1, close_time := "2025-12-31", status := "open",
    category := "Crypto", result := none, event_ticker := "E1" }

/-! ### Helper lemmas -/

/-- The Boolean comparator used by `sortBySpreadDesc` is transitive. -/
lemma spreadLe_trans (a b c : SpreadOpportunity) :
    decide (b.spreadPercent ≤ a.spreadPercent) = true →
    decide (c.spreadPercent ≤ b.spreadPercent) = true →
    decide (c.spreadPercent ≤ a.spreadPercent) = true := by
  simp only [decide_eq_true_eq]
  exact fun h1 h2 => le_trans h2 h1

/-- The Boolean comparator used by `sortBySpreadDesc` is total. -/
lemma spreadLe_total (a b : SpreadOpportunity) :
    (decide (b.spreadPercent ≤ a.spreadPercent) ||
      decide (a.spreadPercent ≤ b.spreadPercent)) = true := by
  simp only [Bool.or_eq_true, decide_eq_true_eq]
  exact (le_total b.spreadPercent a.spreadPercent)

/-- `sortBySpreadDesc` really sorts by `spreadPercent` descending. -/
lemma pairwise_sortBySpreadDesc (l : List SpreadOpportunity) :
    (sortBySpreadDesc l).Pairwise
      (fun a b => b.spreadPercent ≤ a.spreadPercent) := by
  have h := @List.sorted_mergeSort SpreadOpportunity
    (fun a b => decide (b.spreadPercent ≤ a.spreadPercent))
    spreadLe_trans spreadLe_total l
  exact h.imp (fun hab => of_decide_eq_true hab)

/-- `sortBySpreadDesc` preserves length. -/
lemma length_sortBySpreadDesc (l : List SpreadOpportunity) :
    (sortBySpreadDesc l).length = l.length :=
  List.length_mergeSort l

/-! ### C3 -/

/-- C3: for every snapshot state, `detectSpreadOpportunities` returns at most 20
entries, and the list is sorted by `spreadPercent` in descending order (each
entry's `spreadPercent` is at least that of every later entry). -/
theorem C3_detect_bounded_sorted (now : String) (markets : List Market) :
    (detectSpreadOpportunities now markets).length ≤ 20 ∧
    (detectSpreadOpportunities now markets).Pairwise
      (fun a b => b.spreadPercent ≤ a.spreadPercent) := by
  constructor
  · exact List.length_take_le 20 (sortBySpreadDesc
      (mockSpreads now ++
        sortBySpreadDesc (crossOpportunities now (findMatchingMarkets markets)) ++
        singlePlatformSpreads now markets))
  · exact (pairwise_sortBySpreadDesc _).sublist (List.take_sublist 20 _)

/-! ### C4 -/

/-- C4: on a fresh process whose cache was never populated from live data, a
refresh in which both sources deliver zero records serves the static fallback
dataset, which is non-empty; in general, whenever the cache is non-empty, a
zero-record refresh retains the previous snapshot, and `fetchAllMarkets` never
returns (nor stores) an empty list. -/
theorem C4_fallback_nonempty (now : ℚ) (s : CacheState) (pm kl : List Market)
    (hs : s.cachedMarkets ≠ []) :
    ((fetchAllMarkets initialCacheState now [] []).1 = fallbackMarkets ∧
      fallbackMarkets ≠ []) ∧
    (fetchAllMarkets s now [] []).1 = s.cachedMarkets ∧
    (fetchAllMarkets s now pm kl).1 ≠ [] ∧
    (fetchAllMarkets s now pm kl).2.cachedMarkets ≠ [] := by
  refine ⟨⟨?_, by simp [fallbackMarkets]⟩, ?_, ?_, ?_⟩
  · simp [fetchAllMarkets, initialCacheState, fallbackMarkets]
  · simp only [fetchAllMarkets]
    split
    · rfl
    · simp only [List.append_nil, List.length_nil]
      split
      · simp_all
      · split
        · simp_all
        · rfl
  · simp only [fetchAllMarkets]
    split
    · exact hs
    · split
      · next h => exact List.length_pos.mp h
      · split
        · simp [fallbackMarkets]
        · exact hs
  · simp only [fetchAllMarkets]
    split
    · exact hs
    · split
      · next h => exact List.length_pos.mp h
      · split
        · simp [fallbackMarkets]
        · exact hs

/-- Witness for C4 at a concrete state. -/
theorem C4_fallback_nonempty_witness :
    (fetchAllMarkets initialCacheState 0 [] []).1 = fallbackMarkets ∧
      fallbackMarkets ≠ [] :=
  (C4_fallback_nonempty 0 initialCacheState [] []
    (by simp [initialCacheState, fallbackMarkets])).1

/-! ### C5 -/

/-- C5: the reconnect delay is linear in the (post-increment) attempt number,
`RECONNECT_DELAY * attempts`; a successful connection resets the attempt counter
to zero; and once the counter has reached the cap of 5, any further run of
close events — of any length — schedules no reconnect at all
(`scheduleReconnect` is a no-op). -/
theorem C5_reconnect_backoff (n k : ℕ) :
    (n < MAX_RECONNECT_ATTEMPTS →
      scheduleReconnect n = (n + 1, some (RECONNECT_DELAY * (n + 1)))) ∧
    resetAttemptsOnOpen n = 0 ∧
    (MAX_RECONNECT_ATTEMPTS ≤ n → runCloses n k = (n, [])) := by
  refine ⟨fun h => ?_, rfl, fun h => ?_⟩
  · simp [scheduleReconnect, Nat.not_le.mpr h]
  · induction k with
    | zero => rfl
    | succ k ih =>
      simp only [runCloses, scheduleReconnect, if_pos h]
      simp [ih]

/-- Witness for C5: a below-cap attempt schedules a linear-backoff timer, and
from the cap onwards four further closes schedule nothing. -/
theorem C5_reconnect_backoff_witness :
    scheduleReconnect 2 = (2 + 1, some (RECONNECT_DELAY * (2 + 1))) ∧
    runCloses 5 4 = (5, []) :=
  ⟨(C5_reconnect_backoff 2 0).1 (by decide),
   (C5_reconnect_backoff 5 4).2.2 (by decide)⟩

/-! ### C6 -/

/-- C6: a live-feed trade message whose slug is not in the adapter-built slug
index leaves the market cache entirely unchanged (in particular the record
count and every existing price), and so does a message whose price lies outside
the open interval `(0, 1)`. -/
theorem C6_unknown_slug_ignored (slugIdx : List (String × String))
    (cache : List (String × Market)) (msg : RTDSMessage)
    (h : (∀ p, msg.payload = some p → lookupKey slugIdx p.market_slug = none) ∨
         (∀ p, msg.payload = some p → p.price ≤ 0 ∨ 1 ≤ p.price)) :
    handleRTDSMessage slugIdx cache msg = cache := by
  obtain ⟨mtopic, mtype, mpayload⟩ := msg
  cases mpayload with
  | none => simp only [handleRTDSMessage]; split <;> rfl
  | some payload =>
    simp only [handleRTDSMessage]
    split
    · split
      · rcases h with h | h
        · simp only [h payload rfl]
        · cases hl : lookupKey slugIdx payload.market_slug with
          | none => simp only [hl]
          | some marketId =>
            cases hc : lookupKey cache marketId with
            | none => simp only [hl, hc]
            | some market =>
              have hcond : ¬ (0 < payload.price ∧ payload.price < 1) := by
                rcases h payload rfl with hle | hge
                · exact fun hcon => absurd hcon.1 (not_lt.mpr hle)
                · exact fun hcon => absurd hcon.2 (not_lt.mpr hge)
              simp only [hl, hc, if_neg hcond]
      · rfl
    · rfl

/-- Witness for C6: a trade for an unindexed slug leaves a one-record cache
unchanged. -/
theorem C6_unknown_slug_ignored_witness :
    handleRTDSMessage []
      [("pm-1",
        { id := "pm-1", title := "m", description := "",
          platform := Platform.polymarket, category := Category.crypto,
          yesPrice := 42/100, noPrice := 58/100, volume := 0,
          resolutionDate := "" })]
      { topic := "activity", type := "trades",
        payload := some { market_slug := "unknown-slug", outcome := "Yes",
                          price := 1/2, size := 1, side := "BUY", timestamp := 0 } } =
    [("pm-1",
      { id := "pm-1", title := "m", description := "",
        platform := Platform.polymarket, category := Category.crypto,
        yesPrice := 42/100, noPrice := 58/100, volume := 0,
        resolutionDate := "" })] :=
  C6_unknown_slug_ignored _ _ _ (Or.inl (fun p hp => by cases hp; rfl))

/-! ### C2 -/

/-- The clamp always lands in `[0.01, 0.99]`. -/
lemma clampPrice_mem (x : ℚ) : 1/100 ≤ clampPrice x ∧ clampPrice x ≤ 99/100 :=
  ⟨le_max_left _ _, max_le (by norm_num) (min_le_left _ _)⟩

/-- Every entry of `mapSet entries k v` is an old entry or the new pair. -/
lemma mem_mapSet {α : Type} (entries : List (String × α)) (k : String) (v : α) :
    ∀ x ∈ mapSet entries k v, x ∈ entries ∨ x = (k, v) := by
  intro x hx
  unfold mapSet at hx
  split at hx
  · rcases List.mem_map.mp hx with ⟨p, hp, hpx⟩
    by_cases hk : p.1 == k
    · right; rw [if_pos hk] at hpx; exact hpx.symm
    · left; rw [if_neg hk] at hpx; exact hpx ▸ hp
  · rcases List.mem_append.mp hx with h | h
    · exact Or.inl h
    · exact Or.inr (List.mem_singleton.mp h)

/-- C2 (amended): records produced by the Kalshi adapter and by the Polymarket
adapter are clamped into `[0.01, 0.99]` at ingestion, and the live-feed patch
`handleRTDSMessage` preserves the weaker open-interval invariant
`0 < price < 1` (which is all it validates). -/
theorem C2_clamping_amended (km : KalshiMarket) (et ed : String)
    (pmd : PolymarketMarketData) (slugIdx : List (String × String))
    (cache : List (String × Market)) (msg : RTDSMessage)
    (hcache : ∀ p ∈ cache, pricesOpen p.2) :
    pricesClamped (kalshiToMarket km) ∧
    pricesClamped (polymarketToMarket et ed pmd) ∧
    ∀ p ∈ handleRTDSMessage slugIdx cache msg, pricesOpen p.2 := by
  refine ⟨⟨(clampPrice_mem _).1, (clampPrice_mem _).2, (clampPrice_mem _).1,
      (clampPrice_mem _).2⟩,
    ⟨(clampPrice_mem _).1, (clampPrice_mem _).2, (clampPrice_mem _).1,
      (clampPrice_mem _).2⟩, ?_⟩
  intro p hp
  obtain ⟨mtopic, mtype, mpayload⟩ := msg
  cases mpayload with
  | none =>
    simp only [handleRTDSMessage] at hp
    split at hp <;> exact hcache p hp
  | some payload =>
    simp only [handleRTDSMessage] at hp
    split at hp
    · split at hp
      · cases hl : lookupKey slugIdx payload.market_slug with
        | none => simp only [hl] at hp; exact hcache p hp
        | some marketId =>
          cases hc : lookupKey cache marketId with
          | none => simp only [hl, hc] at hp; exact hcache p hp
          | some market =>
            simp only [hl, hc] at hp
            split at hp
            · next hrange =>
              split at hp
              all_goals
                rcases mem_mapSet _ _ _ p hp with hold | rfl
                · exact hcache p hold
                · refine ⟨?_, ?_, ?_, ?_⟩ <;> dsimp only <;>
                    linarith [hrange.1, hrange.2]
            · exact hcache p hp
      · exact hcache p hp
    · exact hcache p hp

/-- Witness for C2 (amended) at concrete inputs. -/
theorem C2_clamping_amended_witness :
    pricesClamped (kalshiToMarket demoKalshiListing) :=
  (C2_clamping_amended demoKalshiListing "" ""
    { id := "1", question := "q", slug := "s", outcomes := [],
      outcomePrices := [], volume := none, active := true, closed := false,
      endDate := "", clobTokenIds := [] }
    [] []
    { topic := "", type := "", payload := none }
    (by intro p hp; cases hp)).1

/-- C2 counterexample: the original claim fails for `handleRTDSMessage`.  A
market whose prices satisfy the `[0.01, 0.99]` clamping invariant is patched by
a live-feed trade at price `1/200 = 0.005` — inside the validated open interval
`(0, 1)` but outside the clamped range — and the resulting cached record has
`yesPrice = 0.005 < 0.01`. -/
theorem C2_clamping_counterexample :
    handleRTDSMessage [("slug-1", "pm-1")]
      [("pm-1",
        { id := "pm-1", title := "m", description := "",
          platform := Platform.polymarket, category := Category.crypto,
          yesPrice := 42/100, noPrice := 58/100, volume := 0,
          resolutionDate := "" })]
      { topic := "activity", type := "trades",
        payload := some { market_slug := "slug-1", outcome := "Yes",
                          price := 1/200, size := 1, side := "BUY", timestamp := 0 } } =
      [("pm-1",
        { id := "pm-1", title := "m", description := "",
          platform := Platform.polymarket, category := Category.crypto,
          yesPrice := 1/200, noPrice := 199/200, volume := 0,
          resolutionDate := "" })] ∧
    ¬ (1/100 ≤ (1 : ℚ)/200) := by
  constructor
  · with_unfolding_all decide
  · norm_num

/-! ### C8 -/

/-- C8: `fetchKalshiMarkets` never throws — every failure outcome (network
failure, non-2xx HTTP response, malformed payload) yields the empty list — and
on success every returned market is the conversion of a source listing whose
status is open or active. -/
theorem C8_fetch_failures_empty (status : ℕ) (ms : List KalshiMarket) (m : Market)
    (hm : m ∈ fetchKalshiMarkets (KalshiFetchResult.success ms)) :
    fetchKalshiMarkets KalshiFetchResult.networkError = [] ∧
    fetchKalshiMarkets (KalshiFetchResult.httpError status) = [] ∧
    fetchKalshiMarkets KalshiFetchResult.parseError = [] ∧
    ∃ src ∈ ms, (src.status = "open" ∨ src.status = "active") ∧
      m = kalshiToMarket src := by
  refine ⟨rfl, rfl, rfl, ?_⟩
  simp only [fetchKalshiMarkets, List.mem_map, List.mem_filter] at hm
  rcases hm with ⟨src, ⟨hmem, hstat⟩, rfl⟩
  refine ⟨src, hmem, ?_, rfl⟩
  simpa using hstat

/-- Witness for C8 on a one-listing payload. -/
theorem C8_fetch_failures_empty_witness :
    ∃ src ∈ [demoKalshiListing],
      (src.status = "open" ∨ src.status = "active") ∧
      kalshiToMarket demoKalshiListing = kalshiToMarket src :=
  (C8_fetch_failures_empty 500 [demoKalshiListing]
    (kalshiToMarket demoKalshiListing)
    (by with_unfolding_all decide)).2.2.2

/-! ### C9 -/

/-- C9: for every cross-source opportunity the spread detector emits,
`spreadDirection` is `polymarket_higher` exactly when the Polymarket price is
strictly higher, and for equal prices the direction is (vacuously)
`polymarket_higher`, because an equal-price pair has spread 0% and is discarded
by the 2% noise floor before emission. -/
theorem C9_direction_higher_side (now : String) (ml : List MarketSimilarity)
    (opp : SpreadOpportunity) (p k : ℚ)
    (hmem : opp ∈ crossOpportunities now ml)
    (hp : opp.polymarketYesPrice = some p)
    (hk : opp.kalshiYesPrice = some k) :
    (opp.spreadDirection = SpreadDirection.polymarket_higher ↔ k < p) ∧
    (p = k → opp.spreadDirection = SpreadDirection.polymarket_higher) := by
  rcases List.mem_filterMap.mp hmem with ⟨⟨i, msim⟩, _, hsome⟩
  unfold crossOpp at hsome
  rcases hpm : msim.polymarket with _ | pm <;> rw [hpm] at hsome
  · cases hsome
  rcases hkl : msim.kalshi with _ | kl <;> rw [hkl] at hsome
  · cases hsome
  dsimp only at hsome
  split at hsome
  · cases hsome
  · next hfloor =>
    have hne : pm.yesPrice ≠ kl.yesPrice := by
      intro he
      exact hfloor (by simp [he])
    cases hsome
    obtain rfl : p = pm.yesPrice := (Option.some.inj (by simpa using hp)).symm
    obtain rfl : k = kl.yesPrice := (Option.some.inj (by simpa using hk)).symm
    dsimp only
    constructor
    · by_cases hlt : kl.yesPrice < pm.yesPrice
      · simp [if_pos hlt, hlt]
      · simp [if_neg hlt, hlt]
    · intro he
      exact absurd he hne

/-- Witness for C9 on the one-pair match list built from the BTC scenario
markets. -/
theorem C9_direction_higher_side_witness :
    (c9Opp.spreadDirection = SpreadDirection.polymarket_higher ↔
      (35 : ℚ)/100 < 42/100) ∧
    ((42 : ℚ)/100 = 35/100 →
      c9Opp.spreadDirection = SpreadDirection.polymarket_higher) :=
  C9_direction_higher_side "x"
    [{ polymarket := some btcPm, kalshi := some btcKl, similarity := 1/2 }]
    c9Opp (42/100) (35/100)
    (by with_unfolding_all decide) rfl rfl

/-! ### C7 -/

/-- One `considerCandidate` step either keeps the previous best candidate or
returns the scanned market, which is then not claimed. -/
lemma considerCandidate_cases (pm : Market) (used : List String)
    (best : Option BestMatch) (kl : Market) :
    considerCandidate pm used best kl = best ∨
    (∃ s, considerCandidate pm used best kl = some ⟨kl, s⟩ ∧
      used.contains kl.id = false) := by
  unfold considerCandidate
  by_cases hu : used.contains kl.id
  · rw [if_pos hu]
    exact Or.inl rfl
  · have hu' : used.contains kl.id = false := by simpa using hu
    rw [if_neg hu]
    by_cases h3 : (3/10 : ℚ) < calculateSimilarity pm.title kl.title
    · rw [if_pos h3]
      cases best with
      | none => exact Or.inr ⟨_, rfl, hu'⟩
      | some b =>
        dsimp only
        by_cases hbs : b.similarity < calculateSimilarity pm.title kl.title
        · rw [if_pos hbs]
          exact Or.inr ⟨_, rfl, hu'⟩
        · rw [if_neg hbs]
          exact Or.inl rfl
    · rw [if_neg h3]
      exact Or.inl rfl

/-- Folding `considerCandidate` over a candidate list yields the accumulator or
an unclaimed member of the list. -/
lemma foldl_considerCandidate (pm : Market) (used : List String) :
    ∀ (kls : List Market) (acc : Option BestMatch) (b : BestMatch),
      kls.foldl (considerCandidate pm used) acc = some b →
      acc = some b ∨ (b.market ∈ kls ∧ used.contains b.market.id = false)
  | [], _, _ => fun h => Or.inl h
  | kl :: rest, acc, b => fun h => by
    rcases foldl_considerCandidate pm used rest (considerCandidate pm used acc kl) b h
      with h1 | h1
    · rcases considerCandidate_cases pm used acc kl with h2 | ⟨s, h2, hu⟩
      · exact Or.inl (h2 ▸ h1)
      · rw [h2] at h1
        cases h1
        exact Or.inr ⟨List.mem_cons_self _ _, hu⟩
    · exact Or.inr ⟨List.mem_cons_of_mem _ h1.1, h1.2⟩

/-- A best match returned by the inner loop is an unclaimed Kalshi market. -/
lemma bestKalshiMatch_some (pm : Market) (kls : List Market) (used : List String)
    (b : BestMatch) (h : bestKalshiMatch pm kls used = some b) :
    b.market ∈ kls ∧ used.contains b.market.id = false := by
  rcases foldl_considerCandidate pm used kls none b h with h1 | h1
  · cases h1
  · exact h1

/-- The Kalshi ids claimed by `matchLoop` avoid the incoming claim set and are
pairwise distinct. -/
lemma matchLoop_kalshi_ids (kls : List Market) :
    ∀ (pms : List Market) (used : List String),
      (∀ x ∈ ((matchLoop kls pms used).filterMap (fun q => q.kalshi)).map
          (fun m => m.id), x ∉ used) ∧
      (((matchLoop kls pms used).filterMap (fun q => q.kalshi)).map
          (fun m => m.id)).Nodup
  | [], used => by simp [matchLoop]
  | pm :: rest, used => by
    cases hbm : bestKalshiMatch pm kls used with
    | none =>
      simpa only [matchLoop, hbm] using matchLoop_kalshi_ids kls rest used
    | some b =>
      by_cases hs : (2/5 : ℚ) < b.similarity
      · have hb := bestKalshiMatch_some pm kls used b hbm
        have ih := matchLoop_kalshi_ids kls rest (b.market.id :: used)
        simp only [matchLoop, hbm, if_pos hs, List.filterMap_cons, Option.some.injEq,
          List.map_cons]
        constructor
        · intro x hx
          rcases List.mem_cons.mp hx with rfl | hx
          · simpa using hb.2
          · intro hxu
            exact ih.1 x hx (List.mem_cons_of_mem _ hxu)
        · refine List.nodup_cons.mpr ⟨?_, ih.2⟩
          intro hmem
          exact ih.1 _ hmem (List.mem_cons_self _ _)
      · simpa only [matchLoop, hbm, if_neg hs] using matchLoop_kalshi_ids kls rest used

/-- The Polymarket sides of the emitted pairs form a sublist of the scanned
Polymarket markets. -/
lemma matchLoop_polymarket_sublist (kls : List Market) :
    ∀ (pms : List Market) (used : List String),
      ((matchLoop kls pms used).filterMap (fun q => q.polymarket)).Sublist pms
  | [], used => by simp [matchLoop]
  | pm :: rest, used => by
    cases hbm : bestKalshiMatch pm kls used with
    | none =>
      simpa only [matchLoop, hbm] using
        (matchLoop_polymarket_sublist kls rest used).cons pm
    | some b =>
      by_cases hs : (2/5 : ℚ) < b.similarity
      · simpa only [matchLoop, hbm, if_pos hs, List.filterMap_cons] using
          (matchLoop_polymarket_sublist kls rest (b.market.id :: used)).cons₂ pm
      · simpa only [matchLoop, hbm, if_neg hs] using
          (matchLoop_polymarket_sublist kls rest used).cons pm

/-- C7: on a snapshot with pairwise-distinct market ids (the Repository is an
id-keyed map), the matching is injective in both directions — no Kalshi market
id and no Polymarket market id occurs in more than one emitted pair. -/
theorem C7_matching_injective (markets : List Market)
    (hnodup : (markets.map (fun m => m.id)).Nodup) :
    (((findMatchingMarkets markets).filterMap (fun q => q.kalshi)).map
        (fun m => m.id)).Nodup ∧
    (((findMatchingMarkets markets).filterMap (fun q => q.polymarket)).map
        (fun m => m.id)).Nodup := by
  constructor
  · exact (matchLoop_kalshi_ids
      (markets.filter (fun m => m.platform == Platform.kalshi))
      (markets.filter (fun m => m.platform == Platform.polymarket)) []).2
  · have hsub := matchLoop_polymarket_sublist
      (markets.filter (fun m => m.platform == Platform.kalshi))
      (markets.filter (fun m => m.platform == Platform.polymarket)) []
    exact ((hsub.map (fun m => m.id)).trans
      ((List.filter_sublist markets).map (fun m => m.id))).nodup hnodup

/-- Witness for C7 on the two-market BTC snapshot. -/
theorem C7_matching_injective_witness :
    (((findMatchingMarkets [btcPm, btcKl]).filterMap (fun q => q.kalshi)).map
        (fun m => m.id)).Nodup ∧
    (((findMatchingMarkets [btcPm, btcKl]).filterMap (fun q => q.polymarket)).map
        (fun m => m.id)).Nodup :=
  C7_matching_injective [btcPm, btcKl] (by with_unfolding_all decide)

/-! ### C1 -/

/-- C1 counterexample: for the spec's own scenario pair — "Will BTC hit $150k?"
(A, yes = 0.42) and "Bitcoin to exceed $150,000" (B, yes = 0.35) — the matcher
computes Jaccard similarity 0, not a value above 0.4: the normalized word sets
(will, btc, hit, 150k) and (bitcoin, to, exceed, 150000) are disjoint.
Consequently `findMatchingMarkets` emits no pair for this snapshot and the
detector derives no cross-source opportunity from it. -/
theorem C1_scenario_counterexample :
    calculateSimilarity "Will BTC hit $150k?" "Bitcoin to exceed $150,000" = 0 ∧
    ¬ (2/5 <
      calculateSimilarity "Will BTC hit $150k?" "Bitcoin to exceed $150,000") ∧
    findMatchingMarkets [btcPm, btcKl] = [] ∧
    crossOpportunities "t" (findMatchingMarkets [btcPm, btcKl]) = [] := by
  refine ⟨?_, ?_, ?_, ?_⟩ <;> with_unfolding_all decide

/-- C1 (amended): on the scenario snapshot the two titles have similarity 0, the
matcher pairs nothing, and no emitted opportunity references either market; the
`spreadPercent = 7.0`, `polymarket_higher` entry present in the output is the
curated mock entry (`mock-1`), which is emitted unconditionally. -/
theorem C1_scenario_amended :
    calculateSimilarity "Will BTC hit $150k?" "Bitcoin to exceed $150,000" = 0 ∧
    findMatchingMarkets [btcPm, btcKl] = [] ∧
    ((detectSpreadOpportunities "t" [btcPm, btcKl]).all
      (fun o => o.polymarketId != some "pm-btc" && o.kalshiId != some "kl-btc")) = true ∧
    ((detectSpreadOpportunities "t" [btcPm, btcKl]).any
      (fun o => o.id == "mock-1" && decide (o.spreadPercent = 7) &&
        o.spreadDirection == SpreadDirection.polymarket_higher)) = true := by
  have h1 : findMatchingMarkets [btcPm, btcKl] = [] := by with_unfolding_all decide
  have h2 : singlePlatformSpreads "t" [btcPm, btcKl] = [] := by
    with_unfolding_all decide
  refine ⟨by with_unfolding_all decide, h1, ?_, ?_⟩ <;>
    · simp only [detectSpreadOpportunities, h1, h2]
      with_unfolding_all decide

/-! ### C10 -/

/-- C10: the 8 curated mock opportunities, each with `spreadPercent` between 4.0
and 7.0, are concatenated unconditionally, so `detectSpreadOpportunities`
always returns at least 8 entries; and curated entries can displace genuinely
detected ones from the top 20 — on the concrete snapshot `snap14` the derived
single-platform opportunity `internal-spread-13` exists but is pushed out of
the returned list by higher-ranked curated entries. -/
theorem C10_curated_always_present (now : String) (markets : List Market)
    (o : SpreadOpportunity) (ho : o ∈ mockSpreads now) :
    8 ≤ (detectSpreadOpportunities now markets).length ∧
    (4 ≤ o.spreadPercent ∧ o.spreadPercent ≤ 7) ∧
    ((detectSpreadOpportunities "t" snap14).all
      (fun q => q.id != "internal-spread-13")) = true ∧
    "internal-spread-13" ∈ (singlePlatformSpreads "t" snap14).map (fun q => q.id) := by
  refine ⟨?_, ?_, ?_, ?_⟩
  · unfold detectSpreadOpportunities
    rw [List.length_take, length_sortBySpreadDesc]
    have h8 : (mockSpreads now).length = 8 := rfl
    simp only [List.length_append, h8]
    omega
  · simp only [mockSpreads, List.mem_cons, List.not_mem_nil, or_false] at ho
    rcases ho with rfl | rfl | rfl | rfl | rfl | rfl | rfl | rfl <;>
      exact ⟨by norm_num, by norm_num⟩
  · have h1 : findMatchingMarkets snap14 = [] := by with_unfolding_all decide
    have h2 : singlePlatformSpreads "t" snap14 = snap14Singles := by
      with_unfolding_all decide
    simp only [detectSpreadOpportunities, h1, h2]
    with_unfolding_all decide
  · with_unfolding_all decide

/-- Witness for C10 at the first curated entry and the empty snapshot. -/
theorem C10_curated_always_present_witness :
    8 ≤ (detectSpreadOpportunities "x" ([] : List Market)).length :=
  (C10_curated_always_present "x" [] _ (List.mem_cons_self _ _)).1

end SnowOracle
